import Mathlib

/-!
# Verification of the security core of `security_manager.py`

Shallow embedding of the authentication, authorization and threat-detection
managers (classes `AuthenticationManager`, `AuthorizationManager`,
`SecurityMonitor`).  Times are naturals (seconds since epoch, matching
`datetime`/`time.time()` at second granularity).  Redis state (users,
sessions, blacklist, per-IP windows) is carried in explicit state records.

Modelling choices, each noted at its definition:
* `secrets.token_urlsafe(16)` (the random `jti`) is modelled by a fresh
  natural drawn from a counter: 128-bit random ids are pairwise distinct.
* Argon2 hashing/verification is modelled collision-free: verification
  succeeds exactly when the password equals the one originally hashed.
* A JWT string is modelled as its payload plus a flag recording whether it
  was signed with this manager's secret (`jwt.decode` succeeds iff the
  signature flag is set and the token is unexpired).
* The random event id `secrets.token_urlsafe(16)` of a `SecurityEvent` is
  modelled as `""`; it is never read by any code path.
-/

namespace SecurityManager

/-- `class UserRole(Enum)` (security_manager.py:32-36). -/
inductive UserRole where
  | admin
  | user
  | guest
  | service
deriving DecidableEq, Repr

/-- `UserRole.value` — the string payload of each enum member. -/
def UserRole.value : UserRole → String
  | .admin => "admin"
  | .user => "user"
  | .guest => "guest"
  | .service => "service"

/-- `class SecurityLevel(Enum)` (security_manager.py:38-42). -/
inductive SecurityLevel where
  | low
  | medium
  | high
  | critical
deriving DecidableEq, Repr

/-- `@dataclass class SecurityEvent` (security_manager.py:44-54), minus the
`metadata` dict (always empty or absent in the modelled paths) and with the
random `id` modelled as `""` (never read). -/
structure SecurityEvent where
  id : String
  user_id : String
  event_type : String
  severity : SecurityLevel
  description : String
  ip_address : String
  user_agent : String
  timestamp : Nat
deriving DecidableEq, Repr

/-- `@dataclass class User` (security_manager.py:56-70).  `locked_until`,
`last_login` are `Option Nat` (Python `Optional[datetime]`). -/
structure User where
  id : String
  username : String
  email : String
  password_hash : String
  role : UserRole
  is_active : Bool
  is_verified : Bool
  created_at : Nat
  last_login : Option Nat
  failed_login_attempts : Nat
  locked_until : Option Nat
  two_factor_enabled : Bool
  two_factor_secret : Option String
deriving DecidableEq, Repr

/-- `EncryptionManager.hash_password` (security_manager.py:135-138):
Argon2 hashing, modelled as an injective tagging of the password. -/
def hash_password (password : String) : String := "argon2$" ++ password

/-- `EncryptionManager.verify_password` (security_manager.py:140-147):
verification succeeds exactly when the password matches the one hashed
(collision-free abstraction of `PasswordHasher.verify`). -/
def verify_password (password hashed : String) : Bool :=
  hashed == hash_password password

/-- JWT payload dict as built by `_generate_access_token` /
`_generate_refresh_token` (security_manager.py:431-453).  Refresh tokens
carry no `username`/`role` keys, hence the `Option`s.  `jti`
(`secrets.token_urlsafe(16)`) is modelled as a fresh natural. -/
structure TokenPayload where
  user_id : String
  username : Option String
  role : Option UserRole
  type : String
  exp : Nat
  iat : Nat
  jti : Nat
deriving DecidableEq, Repr

/-- A JWT string: its payload plus whether it is structurally intact and
signed with this manager's `jwt_secret`. -/
structure Token where
  payload : TokenPayload
  validSig : Bool
deriving DecidableEq, Repr

/-- Result of `jwt.decode`:  `ExpiredSignatureError` when the `exp` claim is
in the past, `InvalidTokenError` on a bad signature/structure.  (In PyJWT,
`ExpiredSignatureError` is a subclass of `InvalidTokenError`; call sites
that catch only `InvalidTokenError` catch both.) -/
inductive JwtError where
  | expired
  | invalid
deriving DecidableEq, Repr

/-- `jwt.decode(token, self.jwt_secret, algorithms=[self.jwt_algorithm])`
at current time `now`: rejects a bad signature, then an expired `exp`
(valid while `now ≤ exp`). -/
def jwtDecode (t : Token) (now : Nat) : Except JwtError TokenPayload :=
  if !t.validSig then .error .invalid
  else if t.payload.exp < now then .error .expired
  else .ok t.payload

/-- Redis hash `session:{user_id}:{jti}` as written by `_store_session`
(security_manager.py:455-470).  `expires_at` is the absolute expiry set via
`expire(session_key, refresh_token_expire)`. -/
structure SessionRec where
  user_id : String
  jti : Nat
  access_token : Token
  refresh_token : Token
  ip_address : String
  user_agent : String
  created_at : Nat
  expires_at : Nat
deriving DecidableEq, Repr

/-- The Redis-backed state of `AuthenticationManager`:
users plus username index (unique usernames are modelled by list lookup),
sessions, the single shared set `blacklisted_tokens` with its key TTL
(absolute expiry), the `security_events` list, and the freshness counter
modelling `secrets.token_urlsafe` draws for `jti`s. -/
structure AuthState where
  users : List User
  sessions : List SessionRec
  blacklist : List Token
  blacklist_expiry : Option Nat
  events : List SecurityEvent
  jtiCounter : Nat
deriving DecidableEq, Repr

/-- `timedelta(hours=1).total_seconds()` — `self.access_token_expire`. -/
def access_token_expire : Nat := 3600

/-- `timedelta(days=7).total_seconds()` — `self.refresh_token_expire`. -/
def refresh_token_expire : Nat := 604800

/-- `self.max_login_attempts = 5`. -/
def max_login_attempts : Nat := 5

/-- `timedelta(minutes=30).total_seconds()` — `self.lockout_duration`. -/
def lockout_duration : Nat := 1800

/-- Members of the Redis set `blacklisted_tokens` at time `now`: the whole
key vanishes once its TTL (set by `logout_user`) has elapsed. -/
def blacklistMembers (s : AuthState) (now : Nat) : List Token :=
  match s.blacklist_expiry with
  | some e => if e ≤ now then [] else s.blacklist
  | none => s.blacklist

/-- `self.redis.exists(session_key)` for `session:{uid}:{jti}` at time
`now` (a Redis key with elapsed TTL no longer exists). -/
def sessionExists (s : AuthState) (uid : String) (jti : Nat) (now : Nat) : Bool :=
  s.sessions.any fun r => r.user_id == uid && r.jti == jti && now < r.expires_at

/-- `_get_user_by_username` (security_manager.py:402-407) via the
`user:username:{username}` index. -/
def get_user_by_username (s : AuthState) (username : String) : Option User :=
  s.users.find? fun u => u.username == username

/-- `_get_user_by_id` (security_manager.py:409-429). -/
def get_user_by_id (s : AuthState) (user_id : String) : Option User :=
  s.users.find? fun u => u.id == user_id

/-- `_store_user` (security_manager.py:377-400): overwrites the hash
`user:{id}` (keyed by id) and refreshes the indexes. -/
def store_user (s : AuthState) (u : User) : AuthState :=
  { s with users := (s.users.filter fun v => !(v.id == u.id)) ++ [u] }

/-- `_log_security_event` (security_manager.py:472-505): `lpush` onto
`security_events` then `ltrim` to the newest 10000.  The alerting branch
(`_send_security_alert`) only logs. -/
def log_event (s : AuthState) (user_id event_type : String)
    (severity : SecurityLevel) (description ip_address user_agent : String)
    (now : Nat) : AuthState :=
  { s with events :=
      (({ id := "", user_id := user_id, event_type := event_type,
          severity := severity, description := description,
          ip_address := ip_address, user_agent := user_agent,
          timestamp := now } : SecurityEvent) :: s.events).take 10000 }

/-- `_generate_access_token` (security_manager.py:431-442); `n` is the
fresh draw for `jti`. -/
def generate_access_token (u : User) (now n : Nat) : Token :=
  { payload := { user_id := u.id, username := some u.username,
                 role := some u.role, type := "access",
                 exp := now + access_token_expire, iat := now, jti := n },
    validSig := true }

/-- `_generate_refresh_token` (security_manager.py:444-453). -/
def generate_refresh_token (u : User) (now n : Nat) : Token :=
  { payload := { user_id := u.id, username := none, role := none,
                 type := "refresh",
                 exp := now + refresh_token_expire, iat := now, jti := n },
    validSig := true }

/-- `_store_session` (security_manager.py:455-470): `hset` under
`session:{user_id}:{access jti}` (overwriting any record at that key),
TTL `refresh_token_expire`. -/
def store_session (s : AuthState) (uid : String) (access refresh : Token)
    (ip ua : String) (now : Nat) : AuthState :=
  { s with sessions :=
      (s.sessions.filter fun r =>
        !(r.user_id == uid && r.jti == access.payload.jti)) ++
      [{ user_id := uid, jti := access.payload.jti, access_token := access,
         refresh_token := refresh, ip_address := ip, user_agent := ua,
         created_at := now, expires_at := now + refresh_token_expire }] }

/-- Caller-visible result of `authenticate_user`: Python's triple
`(False, None, message)` on failure, `(True, access, refresh)` on
success. -/
inductive AuthOutcome where
  | failure (message : String)
  | success (access refresh : Token)
deriving DecidableEq, Repr

/-- `authenticate_user` (security_manager.py:213-284) at current time
`now`, returning the caller-visible outcome and the updated state. -/
def authenticate_user (s : AuthState) (username password ip ua : String)
    (now : Nat) : AuthOutcome × AuthState :=
  match get_user_by_username s username with
  | none =>
      (.failure "Invalid credentials",
       log_event s "" "failed_login" .medium
         ("Login attempt with non-existent username: " ++ username) ip ua now)
  | some user =>
      -- `if user.locked_until and datetime.now() < user.locked_until`
      if (user.locked_until.map fun t => decide (now < t)).getD false then
        (.failure "Account is temporarily locked",
         log_event s user.id "locked_account_access" .high
           ("Access attempt on locked account: " ++ username) ip ua now)
      else if !(verify_password password user.password_hash) then
        let user := { user with
          failed_login_attempts := user.failed_login_attempts + 1 }
        let lockNow := decide (max_login_attempts ≤ user.failed_login_attempts)
        let user := if lockNow then
            { user with locked_until := some (now + lockout_duration) }
          else user
        let s := if lockNow then
            log_event s user.id "account_locked" .high
              "Account locked due to 5 failed login attempts" ip ua now
          else s
        let s := store_user s user
        let s := log_event s user.id "failed_login" .medium
          ("Failed login attempt for user: " ++ username) ip ua now
        (.failure "Invalid credentials", s)
      else if !user.is_active then
        (.failure "Account is inactive",
         log_event s user.id "inactive_account_access" .medium
           ("Login attempt on inactive account: " ++ username) ip ua now)
      else
        let user := { user with failed_login_attempts := 0,
                                locked_until := none, last_login := some now }
        let s := store_user s user
        let access := generate_access_token user now s.jtiCounter
        let refresh := generate_refresh_token user now (s.jtiCounter + 1)
        let s := { s with jtiCounter := s.jtiCounter + 2 }
        let s := store_session s user.id access refresh ip ua now
        let s := log_event s user.id "successful_login" .low
          ("Successful login for user: " ++ username) ip ua now
        (.success access refresh, s)

/-- `validate_token` (security_manager.py:286-304): decode (signature and
expiry), then the blacklist, then the session record; pure read. -/
def validate_token (s : AuthState) (token : Token) (now : Nat) :
    Bool × Option TokenPayload :=
  match jwtDecode token now with
  | .error _ => (false, none)
  | .ok payload =>
      if (blacklistMembers s now).contains token then (false, none)
      else if !(sessionExists s payload.user_id payload.jti now) then
        (false, none)
      else (true, some payload)

/-- `refresh_access_token` (security_manager.py:306-323).  The fresh `jti`
draw for the new access token advances the counter. -/
def refresh_access_token (s : AuthState) (refreshToken : Token) (now : Nat) :
    (Bool × Option Token) × AuthState :=
  match jwtDecode refreshToken now with
  | .error _ => ((false, none), s)
  | .ok payload =>
      if !(payload.type == "refresh") then ((false, none), s)
      else
        match get_user_by_id s payload.user_id with
        | none => ((false, none), s)
        | some user =>
            if !user.is_active then ((false, none), s)
            else
              ((true, some (generate_access_token user now s.jtiCounter)),
               { s with jtiCounter := s.jtiCounter + 1 })

/-- `logout_user` (security_manager.py:325-340): `sadd` the token to the
shared set `blacklisted_tokens`, reset that key's TTL to the full
`access_token_expire`, delete the session record. -/
def logout_user (s : AuthState) (token : Token) (now : Nat) :
    Bool × AuthState :=
  match jwtDecode token now with
  | .error _ => (false, s)
  | .ok payload =>
      let bl := blacklistMembers s now
      let bl := if bl.contains token then bl else bl ++ [token]
      (true,
       { s with blacklist := bl,
                blacklist_expiry := some (now + access_token_expire),
                sessions := s.sessions.filter fun r =>
                  !(r.user_id == payload.user_id && r.jti == payload.jti) })

/-! ## AuthorizationManager (security_manager.py:512-558) -/

/-- The role→permissions dict of `_setup_default_permissions`
(security_manager.py:519-546). -/
def default_permissions : UserRole → List String
  | .admin =>
      ["user:create", "user:read", "user:update", "user:delete",
       "workflow:create", "workflow:read", "workflow:update",
       "workflow:delete",
       "task:create", "task:read", "task:update", "task:delete",
       "system:configure", "system:monitor", "security:manage"]
  | .user =>
      ["user:read_own", "user:update_own",
       "workflow:create", "workflow:read_own", "workflow:update_own",
       "workflow:delete_own",
       "task:create", "task:read_own", "task:update_own", "task:delete_own"]
  | .guest =>
      ["user:read_own", "workflow:read_own", "task:read_own"]
  | .service =>
      ["workflow:execute", "task:execute", "system:monitor"]

/-- The Redis sets `role_permissions:{role}` of `AuthorizationManager`. -/
structure AuthzState where
  role_permissions : UserRole → List String

/-- State right after `__init__` ran `_setup_default_permissions`
(delete each `role_permissions:{role}` key, then `sadd` the seed). -/
def setup_default_permissions : AuthzState :=
  { role_permissions := default_permissions }

/-- `check_permission` (security_manager.py:548-550): pure set
membership. -/
def check_permission (st : AuthzState) (user_role : UserRole)
    (permission : String) : Bool :=
  (st.role_permissions user_role).contains permission

/-- `add_permission` (security_manager.py:552-554). -/
def add_permission (st : AuthzState) (role : UserRole) (permission : String) :
    AuthzState × Bool :=
  let already := (st.role_permissions role).contains permission
  ({ role_permissions := fun r =>
      if r == role && !already then st.role_permissions r ++ [permission]
      else st.role_permissions r },
   !already)

/-- `remove_permission` (security_manager.py:556-558). -/
def remove_permission (st : AuthzState) (role : UserRole)
    (permission : String) : AuthzState × Bool :=
  ((⟨fun r => if r == role then
      (st.role_permissions r).filter (fun p => !(p == permission))
    else st.role_permissions r⟩ : AuthzState),
   (st.role_permissions role).contains permission)

/-! ## SecurityMonitor (security_manager.py:560-674)

Per-IP state lives in the Redis sorted set `requests:{ip}` (scores =
member strings = `str(int(time.time()))`, so a sorted set of second
timestamps) and the hash `access_rate:{ip}` (minute → count).  The
`expire(key, …)` calls on these keys are subsumed under monotone time:
every member's score is at most the key's last-touch time, so by the time
the key TTL could fire, the pruning in `_detect_brute_force` (resp. the
minute bucketing) already discards the same entries.

`_is_suspicious_ip` (security_manager.py:632-646) needs textual IP
parsing (`ipaddress.ip_address`, `is_private`, `is_loopback`) and an
always-empty `known_bad_ips` set; it is pure in the state and only ever
contributes a `medium`-severity event, so it enters the model as an
opaque-to-the-theorems Boolean parameter `susp` that the analyzed claims
quantify over. -/

/-- `threat_patterns['brute_force']['time_window']` = 300 seconds. -/
def brute_force_time_window : Nat := 300

/-- `threat_patterns['brute_force']['max_attempts']` = 10. -/
def brute_force_max_attempts : Nat := 10

/-- `threat_patterns['unusual_access_pattern']['max_requests_per_minute']`
= 100. -/
def max_requests_per_minute : Nat := 100

/-- `zremrangebyscore(key, 0, window_start)` with
`window_start = current_time - time_window` (Python int arithmetic: the
range is empty when `window_start` is negative; all stored scores are
nonnegative second timestamps). -/
def pruneWindow (w : List Nat) (now : Nat) : List Nat :=
  w.filter fun t => !(decide ((t : Int) ≤ (now : Int) - brute_force_time_window))

/-- `_detect_brute_force` (security_manager.py:615-630): prune the window,
`zadd` the current second (a set member: a repeated timestamp does not
grow the set), then compare `zcard` strictly against the threshold.
Returns the updated window and the detection flag. -/
def detect_brute_force (w : List Nat) (now : Nat) : List Nat × Bool :=
  let w := pruneWindow w now
  let w := if w.contains now then w else w ++ [now]
  (w, decide (brute_force_max_attempts < w.length))

/-- `_detect_unusual_access` (security_manager.py:648-659): `hincrby` the
current minute's bucket, then compare it strictly against the
threshold. -/
def detect_unusual_access (h : Nat → Nat) (now : Nat) : (Nat → Nat) × Bool :=
  let minute := now / 60
  let h := fun m => if m == minute then h m + 1 else h m
  (h, decide (max_requests_per_minute < h minute))

/-- Per-IP monitor state: `requests:{ip}` windows and `access_rate:{ip}`
minute counters. -/
structure MonitorState where
  requests : String → List Nat
  access_rate : String → Nat → Nat

/-- `_create_threat_event` (security_manager.py:661-674); the random event
id is modelled as `""` (never read). -/
def create_threat_event (event_type : String) (severity : SecurityLevel)
    (description ip ua : String) (user_id : Option String) (now : Nat) :
    SecurityEvent :=
  { id := "", user_id := user_id.getD "", event_type := event_type,
    severity := severity, description := description, ip_address := ip,
    user_agent := ua, timestamp := now }

/-- `analyze_request` (security_manager.py:585-613) at time `now`:
runs all three detectors (the brute-force and access-rate ones update
their keys), collecting a threat event per firing detector, in source
order.  `endpoint` is accepted and unused, as in the source; `susp` is
the abstracted `_is_suspicious_ip`. -/
def analyze_request (st : MonitorState) (susp : String → Bool)
    (ip ua endpoint : String) (user_id : Option String) (now : Nat) :
    MonitorState × List SecurityEvent :=
  let d := detect_brute_force (st.requests ip) now
  let st1 : MonitorState :=
    { st with requests := fun k => if k == ip then d.1 else st.requests k }
  let a := detect_unusual_access (st1.access_rate ip) now
  let st2 : MonitorState :=
    { st1 with
      access_rate := fun k => if k == ip then a.1 else st1.access_rate k }
  (st2,
    (if d.2 then
      [create_threat_event "brute_force_detected" .high
        ("Brute force attack detected from IP: " ++ ip) ip ua user_id now]
     else []) ++
    (if susp ip then
      [create_threat_event "suspicious_ip" .medium
        ("Request from suspicious IP: " ++ ip) ip ua user_id now]
     else []) ++
    (if a.2 then
      [create_threat_event "unusual_access_pattern" .medium
        ("Unusual access pattern detected from IP: " ++ ip) ip ua user_id now]
     else []))

/-- A sequence of `analyze_request` calls (one per listed timestamp) from
the same origin, concatenating every returned threat list. -/
def runAnalyze (susp : String → Bool) (ip ua endpoint : String)
    (user_id : Option String) :
    MonitorState → List Nat → MonitorState × List SecurityEvent
  | st, [] => (st, [])
  | st, t :: ts =>
      let next := analyze_request st susp ip ua endpoint user_id t
      let rest := runAnalyze susp ip ua endpoint user_id next.1 ts
      (rest.1, next.2 ++ rest.2)

/-! ## Concrete fixtures -/

/-- A registered but deactivated identity (`is_active = False`) whose
session from a login at time 50 is still live. -/
def aliceInactive : User :=
  { id := "u1", username := "alice", email := "alice@x.com",
    password_hash := hash_password "Str0ng!Passw0rd123", role := .user,
    is_active := false, is_verified := true, created_at := 0,
    last_login := some 50, failed_login_attempts := 0, locked_until := none,
    two_factor_enabled := false, two_factor_secret := none }

/-- The access token issued to `aliceInactive` at time 50 (`jti` 0). -/
def c1Access : Token :=
  { payload := { user_id := "u1", username := some "alice",
                 role := some .user, type := "access", exp := 3650, iat := 50,
                 jti := 0 },
    validSig := true }

/-- The refresh token issued alongside `c1Access` (`jti` 1). -/
def c1Refresh : Token :=
  { payload := { user_id := "u1", username := none, role := none,
                 type := "refresh", exp := 604850, iat := 50, jti := 1 },
    validSig := true }

/-- State after `alice` logged in at time 50 and was then deactivated:
her session record is intact, nothing is blacklisted. -/
def c1State : AuthState :=
  { users := [aliceInactive],
    sessions := [{ user_id := "u1", jti := 0, access_token := c1Access,
                   refresh_token := c1Refresh, ip_address := "1.2.3.4",
                   user_agent := "ua", created_at := 50,
                   expires_at := 604850 }],
    blacklist := [], blacklist_expiry := none, events := [], jtiCounter := 2 }

/-- An active, unlocked registered identity. -/
def aliceActive : User :=
  { aliceInactive with is_active := true }

/-- A state holding only the active identity `aliceActive`. -/
def c9State : AuthState :=
  { users := [aliceActive], sessions := [], blacklist := [],
    blacklist_expiry := none, events := [], jtiCounter := 0 }

/-- A token blacklisted in `c3State` before time 100; the set's TTL was
last reset at its revocation, expiring at 200. -/
def c3TokenOld : Token :=
  { payload := { user_id := "u9", username := some "dave",
                 role := some .user, type := "access", exp := 150, iat := 10,
                 jti := 7 },
    validSig := true }

/-- An access token with 10 seconds of remaining lifetime at time 100. -/
def c3Token : Token :=
  { payload := { user_id := "u1", username := some "alice",
                 role := some .user, type := "access", exp := 110, iat := 90,
                 jti := 3 },
    validSig := true }

/-- State at time 100: one earlier revoked token in the shared blacklist
set (set TTL expiring at 200). -/
def c3State : AuthState :=
  { users := [aliceActive], sessions := [], blacklist := [c3TokenOld],
    blacklist_expiry := some 200, events := [], jtiCounter := 8 }

/-- State after a sequence of `authenticate_user` calls, one per listed
timestamp, with fixed credentials. -/
def authStateAfter (s : AuthState) (uname pw ip ua : String) :
    List Nat → AuthState
  | [] => s
  | t :: ts =>
      authStateAfter (authenticate_user s uname pw ip ua t).2 uname pw ip ua ts

/-- Discriminator for the caller-visible outcome: Python's first tuple
component (`True` on success). -/
def AuthOutcome.isSuccess : AuthOutcome → Bool
  | .success _ _ => true
  | .failure _ => false

/-- An identity with 5 recorded failures whose lockout expired at time
100 (stale `locked_until`). -/
def charlie : User :=
  { id := "u2", username := "charlie", email := "charlie@x.com",
    password_hash := hash_password "Ch@rliePass123", role := .user,
    is_active := true, is_verified := true, created_at := 0,
    last_login := some 90, failed_login_attempts := 5,
    locked_until := some 100, two_factor_enabled := false,
    two_factor_secret := none }

/-- State holding only `charlie`. -/
def c10State : AuthState :=
  { users := [charlie], sessions := [], blacklist := [],
    blacklist_expiry := none, events := [], jtiCounter := 0 }

/-- `c1State` with the identity active: `alice` logged in at time 50
(session under `jti` 0) and is still active. -/
def c2State : AuthState :=
  { c1State with users := [aliceActive] }

/-- The state-changing entry points a caller can still invoke after a
revocation: authentication, token refresh, logout, and identity-record
writes (register / deactivate via `_store_user`). -/
inductive AuthOp where
  | authCall (username password ip ua : String) (now : Nat)
  | refreshCall (tok : Token) (now : Nat)
  | logoutCall (tok : Token) (now : Nat)
  | putUser (u : User)

/-- Apply one operation's state effect. -/
def runOp (s : AuthState) : AuthOp → AuthState
  | .authCall un pw ip ua now => (authenticate_user s un pw ip ua now).2
  | .refreshCall t now => (refresh_access_token s t now).2
  | .logoutCall t now => (logout_user s t now).2
  | .putUser u => store_user s u

/-- Apply a sequence of operations. -/
def runOps (s : AuthState) (ops : List AuthOp) : AuthState :=
  ops.foldl runOp s

/-- "The session key `(uid, j)` is dead": `j` was already drawn and no
session record carries that key. -/
def noSession (s : AuthState) (uid : String) (j : Nat) : Prop :=
  j < s.jtiCounter ∧ ∀ r ∈ s.sessions, ¬ (r.user_id = uid ∧ r.jti = j)

/-- A monitor with no recorded requests. -/
def m0 : MonitorState :=
  { requests := fun _ => [], access_rate := fun _ _ => 0 }

/-! ## Claims -/

/-- **C1, counterexample.** At time 100 the identity of `c1Access` is
deactivated (`is_active = false`), the token is structurally valid,
unexpired, unblacklisted and has a live session — yet `validate_token`
accepts it, contradicting the claim that validation re-checks the
identity's active status. -/
theorem C1_counterexample :
    (get_user_by_id c1State "u1").map User.is_active = some false ∧
    validate_token c1State c1Access 100 = (true, some c1Access.payload) := by
  decide

/-- **C1, amended.** `validate_token` checks only the signature/expiry,
the blacklist, and the session record; it never consults the identity
store, so its verdict is unchanged under any modification of the users
table — in particular a token whose identity was deactivated after
issuance is still accepted while its session lives. -/
theorem C1_validate_ignores_identity_store (s : AuthState) (us : List User)
    (token : Token) (now : Nat) :
    validate_token { s with users := us } token now =
      validate_token s token now := rfl

/-- **C7, counterexample.** The default seed grants `user:read_own` to the
`user` role, but `check_permission` for `admin` on that permission is
`false`: the admin set is not a superset of the other roles' baselines. -/
theorem C7_counterexample :
    "user:read_own" ∈ default_permissions UserRole.user ∧
    check_permission setup_default_permissions UserRole.admin "user:read_own"
      = false := by
  decide

/-- **C7, amended.** Under the default seed, permission checks are exact
string membership with no suffix handling, and `admin` is not a superset
of the other baselines: of the permissions granted to `user`, `guest`
and `service`, admin holds exactly the unscoped ones — `workflow:create`,
`task:create` and `system:monitor` — and none of the `_own`-scoped or
`execute` permissions. -/
theorem C7_admin_covers_unscoped_permissions :
    ((default_permissions .user ++ default_permissions .guest ++
        default_permissions .service).all fun p =>
      check_permission setup_default_permissions .admin p ==
        (["workflow:create", "task:create", "system:monitor"] :
          List String).contains p) = true := by
  decide

/-- **C8.** `refresh_access_token` fails (returns `(False, None)`, the
`TokenInvalid` outcome) whenever the payload's `type` is not `refresh`
(in particular for every access token), and whenever the identity is
missing or inactive; a new access token is issued only when the token has
`type = refresh` and the identity is still active. -/
theorem C8_refresh_requires_refresh_type_and_active_identity
    (s : AuthState) (tok : Token) (now : Nat) :
    (tok.payload.type ≠ "refresh" →
      (refresh_access_token s tok now).1 = (false, none)) ∧
    (get_user_by_id s tok.payload.user_id = none →
      (refresh_access_token s tok now).1 = (false, none)) ∧
    (∀ u, get_user_by_id s tok.payload.user_id = some u →
      u.is_active = false →
      (refresh_access_token s tok now).1 = (false, none)) ∧
    ((refresh_access_token s tok now).1.1 = true →
      tok.payload.type = "refresh" ∧
      ∃ u, get_user_by_id s tok.payload.user_id = some u ∧
        u.is_active = true) := by
  rcases hdec : jwtDecode tok now with e | p
  · refine ⟨?_, ?_, ?_, ?_⟩ <;>
      simp [refresh_access_token, hdec]
  · have hp : p = tok.payload := by
      unfold jwtDecode at hdec
      split at hdec
      · simp at hdec
      · split at hdec
        · simp at hdec
        · simpa using hdec.symm
    subst hp
    refine ⟨?_, ?_, ?_, ?_⟩
    · intro hty
      simp [refresh_access_token, hdec, hty]
    · intro hnone
      simp [refresh_access_token, hdec, hnone]
    · intro u hu hinact
      by_cases hty : tok.payload.type = "refresh"
      · simp [refresh_access_token, hdec, hty, hu, hinact]
      · simp [refresh_access_token, hdec, hty]
    · intro hok
      by_cases hty : tok.payload.type = "refresh"
      · refine ⟨hty, ?_⟩
        rcases hu : get_user_by_id s tok.payload.user_id with _ | u
        · simp [refresh_access_token, hdec, hty, hu] at hok
        · refine ⟨u, rfl, ?_⟩
          by_cases hact : u.is_active
          · exact hact
          · simp [refresh_access_token, hdec, hty, hu, hact] at hok
      · simp [refresh_access_token, hdec, hty] at hok

/-- **C8, witness.** Concrete instantiation: refreshing with an access
token (`type = "access"`) fails. -/
theorem C8_witness :
    (refresh_access_token c1State c1Access 100).1 = (false, none) :=
  (C8_refresh_requires_refresh_type_and_active_identity c1State c1Access
    100).1 (by decide)

/-- **C9.** An authentication attempt with an unknown username and one
with a known username but wrong password (unlocked, active account)
return the identical caller-visible outcome
`(False, None, "Invalid credentials")`. -/
theorem C9_unknown_user_and_wrong_password_indistinguishable
    (s : AuthState) (uname1 uname2 pw1 pw2 ip1 ua1 ip2 ua2 : String)
    (t1 t2 : Nat) (u : User)
    (h1 : get_user_by_username s uname1 = none)
    (h2 : get_user_by_username s uname2 = some u)
    (hactive : u.is_active = true)
    (hunlocked : ∀ t, u.locked_until = some t → t ≤ t2)
    (hwrong : verify_password pw2 u.password_hash = false) :
    (authenticate_user s uname1 pw1 ip1 ua1 t1).1 =
        .failure "Invalid credentials" ∧
    (authenticate_user s uname2 pw2 ip2 ua2 t2).1 =
        .failure "Invalid credentials" := by
  have hlock : (u.locked_until.map fun t => decide (t2 < t)).getD false
      = false := by
    rcases hl : u.locked_until with _ | t
    · rfl
    · simpa using Nat.not_lt.mpr (hunlocked t hl)
  constructor
  · simp [authenticate_user, h1]
  · simp [authenticate_user, h2, hlock, hwrong]

/-- **C9, witness.** Concrete instantiation: a lookup miss for `"bob"`
and a wrong password for `"alice"` both return
`failure "Invalid credentials"`. -/
theorem C9_witness :
    (authenticate_user c9State "bob" "x" "ip" "ua" 60).1 =
        .failure "Invalid credentials" ∧
    (authenticate_user c9State "alice" "wrongpw" "ip" "ua" 60).1 =
        .failure "Invalid credentials" :=
  C9_unknown_user_and_wrong_password_indistinguishable c9State "bob" "alice"
    "x" "wrongpw" "ip" "ua" "ip" "ua" 60 60 aliceActive (by decide)
    (by decide) (by decide) (by intro t h; simp [aliceActive, aliceInactive] at h)
    (by decide)

/-- **C3, counterexample.** Revoking `c3Token` at time 100 (remaining
lifetime 10 s, so a remaining-lifetime TTL would end at time 110) instead
stamps the single shared blacklist set with expiry 3700 = now + the full
access-token lifetime, renewing the TTL that also covers the earlier
revoked `c3TokenOld`. -/
theorem C3_counterexample :
    ((logout_user c3State c3Token 100).2.blacklist
        = [c3TokenOld, c3Token]) ∧
    (logout_user c3State c3Token 100).2.blacklist_expiry = some 3700 ∧
    c3Token.payload.exp = 110 ∧ (3700 : Nat) ≠ 110 := by
  decide

/-- **C3, amended.** For a decodable, unexpired token, `logout_user` adds
the token to the single shared blacklist set and resets that set's TTL to
the full access-token lifetime (`now + access_token_expire`, regardless of
the token's remaining lifetime and shared with every other blacklisted
token), deletes the token's session record, and — at a fixed time — is
idempotent: an immediate second revoke returns the same result and leaves
the state unchanged. -/
theorem C3_logout_shared_full_ttl_and_idempotent (s : AuthState)
    (tok : Token) (now : Nat) (hsig : tok.validSig = true)
    (hexp : now ≤ tok.payload.exp) :
    (logout_user s tok now).1 = true ∧
    tok ∈ (logout_user s tok now).2.blacklist ∧
    (logout_user s tok now).2.blacklist_expiry
        = some (now + access_token_expire) ∧
    (logout_user s tok now).2.sessions = s.sessions.filter (fun r =>
      !(r.user_id == tok.payload.user_id && r.jti == tok.payload.jti)) ∧
    logout_user (logout_user s tok now).2 tok now
        = (true, (logout_user s tok now).2) := by
  have hdec : jwtDecode tok now = .ok tok.payload := by
    simp [jwtDecode, hsig, Nat.not_lt.mpr hexp]
  have hmem : ∀ l : List Token,
      tok ∈ (if l.contains tok then l else l ++ [tok]) := by
    intro l
    by_cases h : tok ∈ l <;> simp [h]
  have hlt : ¬ (now + access_token_expire ≤ now) := by
    unfold access_token_expire; omega
  refine ⟨by simp [logout_user, hdec],
    by simpa [logout_user, hdec] using hmem (blacklistMembers s now),
    by simp [logout_user, hdec], by simp [logout_user, hdec], ?_⟩
  have h1 : tok ∈ (if (blacklistMembers s now).contains tok
      then blacklistMembers s now else blacklistMembers s now ++ [tok]) :=
    hmem _
  simp only [logout_user, hdec, blacklistMembers]
  simp [hlt, h1, List.filter_filter]
  simpa [blacklistMembers] using hmem (blacklistMembers s now)

/-- **C3, witness.** The amended statement instantiated at the concrete
revocation of `c3Token` at time 100. -/
theorem C3_witness :
    (logout_user c3State c3Token 100).1 = true ∧
    c3Token ∈ (logout_user c3State c3Token 100).2.blacklist ∧
    (logout_user c3State c3Token 100).2.blacklist_expiry
        = some (100 + access_token_expire) ∧
    (logout_user c3State c3Token 100).2.sessions
        = c3State.sessions.filter (fun r =>
            !(r.user_id == c3Token.payload.user_id &&
              r.jti == c3Token.payload.jti)) ∧
    logout_user (logout_user c3State c3Token 100).2 c3Token 100
        = (true, (logout_user c3State c3Token 100).2) :=
  C3_logout_shared_full_ttl_and_idempotent c3State c3Token 100 (by decide)
    (by decide)

/-! ### Step lemmas for `authenticate_user` on a single-identity store -/

/-- An element one position below the head survives the `ltrim`-style
`take 10000` of the event log. -/
theorem mem_take_of_snd {α : Type} (x a : α) (l : List α) :
    a ∈ (x :: (a :: l).take 10000).take 10000 := by
  have h1 : (10000 : Nat) = 9999 + 1 := by norm_num
  rw [h1, List.take_succ_cons, List.take_succ_cons]
  have h2 : (9999 : Nat) = 9998 + 1 := by norm_num
  rw [h2, List.take_succ_cons]
  simp

/-- A failed password check below the lockout threshold: the caller sees
`InvalidCredentials` and the stored identity's failure counter advances
with no lockout set. -/
theorem auth_fail_step (s : AuthState) (u : User) (uname pw ip ua : String)
    (now c : Nat) (husers : s.users = [u]) (huname : u.username = uname)
    (hcount : u.failed_login_attempts = c)
    (hnolock : u.locked_until = none)
    (hwrong : verify_password pw u.password_hash = false)
    (hfew : c + 1 < max_login_attempts) :
    (authenticate_user s uname pw ip ua now).1 =
        .failure "Invalid credentials" ∧
    ∃ u' : User, (authenticate_user s uname pw ip ua now).2.users = [u'] ∧
      u'.username = uname ∧ u'.password_hash = u.password_hash ∧
      u'.failed_login_attempts = c + 1 ∧ u'.locked_until = none ∧
      u'.is_active = u.is_active := by
  subst huname
  have hget : get_user_by_username s u.username = some u := by
    simp [get_user_by_username, husers]
  have hno : ¬ (max_login_attempts ≤ u.failed_login_attempts + 1) := by
    omega
  refine ⟨?_, { u with failed_login_attempts := u.failed_login_attempts + 1 },
    ?_, rfl, rfl, by simp [hcount], hnolock, rfl⟩ <;>
    simp [authenticate_user, hget, hnolock, hwrong, hno, store_user,
      log_event, husers]

/-- A failed password check that crosses the lockout threshold: the
caller still sees `InvalidCredentials`, the stored identity is locked
until `now + lockout_duration`, and a high-severity `account_locked`
event is logged. -/
theorem auth_lock_step (s : AuthState) (u : User) (uname pw ip ua : String)
    (now c : Nat) (husers : s.users = [u]) (huname : u.username = uname)
    (hcount : u.failed_login_attempts = c)
    (hnolock : u.locked_until = none)
    (hwrong : verify_password pw u.password_hash = false)
    (hmany : max_login_attempts ≤ c + 1) :
    (authenticate_user s uname pw ip ua now).1 =
        .failure "Invalid credentials" ∧
    (∃ u' : User, (authenticate_user s uname pw ip ua now).2.users = [u'] ∧
      u'.username = uname ∧ u'.password_hash = u.password_hash ∧
      u'.locked_until = some (now + lockout_duration)) ∧
    ∃ e ∈ (authenticate_user s uname pw ip ua now).2.events,
      e.event_type = "account_locked" ∧ e.severity = .high := by
  subst huname
  have hget : get_user_by_username s u.username = some u := by
    simp [get_user_by_username, husers]
  have hyes : max_login_attempts ≤ u.failed_login_attempts + 1 := by omega
  refine ⟨?_, ⟨{ u with
      failed_login_attempts := u.failed_login_attempts + 1,
      locked_until := some (now + lockout_duration) }, ?_, rfl, rfl, rfl⟩, ?_⟩
  · simp [authenticate_user, hget, hnolock, hwrong, hyes]
  · simp [authenticate_user, hget, hnolock, hwrong, hyes, store_user,
      log_event, husers]
  · refine ⟨{
      id := "",
      user_id := u.id,
      event_type := "account_locked",
      severity := .high,
      description := "Account locked due to 5 failed login attempts",
      ip_address := ip,
      user_agent := ua,
      timestamp := now }, ?_, rfl, rfl⟩
    simp only [authenticate_user, hget, hnolock, hwrong, hyes]
    simp [log_event, store_user]

/-- An attempt on a currently locked account short-circuits with the
`AccountLocked` message before the password is checked. -/
theorem auth_locked_step (s : AuthState) (u : User)
    (uname pw ip ua : String) (now tl : Nat)
    (husers : s.users = [u]) (huname : u.username = uname)
    (hlock : u.locked_until = some tl) (hnow : now < tl) :
    (authenticate_user s uname pw ip ua now).1 =
        .failure "Account is temporarily locked" := by
  subst huname
  have hget : get_user_by_username s u.username = some u := by
    simp [get_user_by_username, husers]
  simp [authenticate_user, hget, hlock, hnow]

/-- **C5.** Starting from a fresh identity (zero failures, no lockout),
five consecutive failed authentications at arbitrary times lock the
account: the stored lockout expiry is `t5 + lockout_duration`
(30 minutes past the fifth failure), a high-severity `account_locked`
event is logged, and the sixth attempt — with the correct password,
before the lockout expires — returns the `AccountLocked` message, not
`InvalidCredentials`. -/
theorem C5_sixth_attempt_account_locked (s : AuthState) (u : User)
    (uname pwGood pwBad ip ua : String) (t1 t2 t3 t4 t5 t6 : Nat)
    (husers : s.users = [u]) (huname : u.username = uname)
    (hfresh : u.failed_login_attempts = 0) (hnolock : u.locked_until = none)
    (hactive : u.is_active = true)
    (hgood : verify_password pwGood u.password_hash = true)
    (hbad : verify_password pwBad u.password_hash = false)
    (ht : t6 < t5 + lockout_duration) :
    (authenticate_user
        (authStateAfter s uname pwBad ip ua [t1, t2, t3, t4, t5])
        uname pwGood ip ua t6).1 =
      .failure "Account is temporarily locked" ∧
    (authStateAfter s uname pwBad ip ua [t1, t2, t3, t4, t5]).users.map
        User.locked_until = [some (t5 + lockout_duration)] ∧
    ∃ e ∈ (authStateAfter s uname pwBad ip ua [t1, t2, t3, t4, t5]).events,
      e.event_type = "account_locked" ∧ e.severity = .high := by
  simp only [authStateAfter]
  obtain ⟨-, u1, h1u, h1n, h1h, h1c, h1l, -⟩ :=
    auth_fail_step s u uname pwBad ip ua t1 0 husers huname hfresh hnolock
      hbad (by unfold max_login_attempts; omega)
  obtain ⟨-, u2, h2u, h2n, h2h, h2c, h2l, -⟩ :=
    auth_fail_step _ u1 uname pwBad ip ua t2 1 h1u h1n h1c h1l
      (by rw [h1h]; exact hbad) (by unfold max_login_attempts; omega)
  obtain ⟨-, u3, h3u, h3n, h3h, h3c, h3l, -⟩ :=
    auth_fail_step _ u2 uname pwBad ip ua t3 2 h2u h2n h2c h2l
      (by rw [h2h, h1h]; exact hbad) (by unfold max_login_attempts; omega)
  obtain ⟨-, u4, h4u, h4n, h4h, h4c, h4l, -⟩ :=
    auth_fail_step _ u3 uname pwBad ip ua t4 3 h3u h3n h3c h3l
      (by rw [h3h, h2h, h1h]; exact hbad)
      (by unfold max_login_attempts; omega)
  obtain ⟨-, ⟨u5, h5u, h5n, h5h, h5l⟩, hev⟩ :=
    auth_lock_step _ u4 uname pwBad ip ua t5 4 h4u h4n h4c h4l
      (by rw [h4h, h3h, h2h, h1h]; exact hbad)
      (by unfold max_login_attempts; omega)
  refine ⟨auth_locked_step _ u5 uname pwGood ip ua t6
      (t5 + lockout_duration) h5u h5n h5l ht, ?_, hev⟩
  rw [h5u]
  simp [h5l]

/-- **C5, witness.** The concrete scenario: `alice` fails five times at
times 1–5 with `"wrong"`, then the correct password at time 10 is
rejected with the `AccountLocked` message. -/
theorem C5_witness :
    (authenticate_user
        (authStateAfter c9State "alice" "wrong" "ip" "ua" [1, 2, 3, 4, 5])
        "alice" "Str0ng!Passw0rd123" "ip" "ua" 10).1 =
      .failure "Account is temporarily locked" ∧
    (authStateAfter c9State "alice" "wrong" "ip" "ua"
        [1, 2, 3, 4, 5]).users.map User.locked_until
      = [some (5 + lockout_duration)] ∧
    ∃ e ∈ (authStateAfter c9State "alice" "wrong" "ip" "ua"
        [1, 2, 3, 4, 5]).events,
      e.event_type = "account_locked" ∧ e.severity = .high :=
  C5_sixth_attempt_account_locked c9State aliceActive "alice"
    "Str0ng!Passw0rd123" "wrong" "ip" "ua" 1 2 3 4 5 10 (by decide)
    (by decide) (by decide) (by decide) (by decide) (by decide) (by decide)
    (by decide)

/-- **C10, counterexample.** `charlie` has a stale lockout
(`locked_until = 100`) and 5 recorded failures.  At time 200 the lock
check treats him as unlocked (the wrong-password attempt reaches the
password check and returns `InvalidCredentials`), but the check does not
clear the stale `locked_until`: the failure overwrites it with a fresh
lockout expiring at 2000, so it is not reset to empty. -/
theorem C10_counterexample :
    (authenticate_user c10State "charlie" "badpw" "ip" "ua" 200).1 =
        .failure "Invalid credentials" ∧
    (authenticate_user c10State "charlie" "badpw" "ip" "ua"
        200).2.users.map User.locked_until = [some 2000] := by
  decide

/-- **C10, amended.** A past lockout expiry is treated as unlocked
lazily, with no explicit unlock call; but the stale `locked_until` is
cleared only by a fully successful authentication (which resets both it
and the failure counter).  A passed lock check followed by a wrong
password overwrites `locked_until` with a fresh lockout (the counter is
already at threshold), and a passed check that fails on an inactive
account leaves the stale value in place. -/
theorem C10_stale_lock_cleared_only_by_full_success (s : AuthState)
    (u : User) (uname pw ip ua : String) (now te : Nat)
    (husers : s.users = [u]) (huname : u.username = uname)
    (hstale : u.locked_until = some te) (hpast : te ≤ now) :
    (u.is_active = true → verify_password pw u.password_hash = true →
      (authenticate_user s uname pw ip ua now).1.isSuccess = true ∧
      (authenticate_user s uname pw ip ua now).2.users.map
          User.locked_until = [none] ∧
      (authenticate_user s uname pw ip ua now).2.users.map
          User.failed_login_attempts = [0]) ∧
    (verify_password pw u.password_hash = false →
      max_login_attempts ≤ u.failed_login_attempts + 1 →
      (authenticate_user s uname pw ip ua now).1 =
          .failure "Invalid credentials" ∧
      (authenticate_user s uname pw ip ua now).2.users.map
          User.locked_until = [some (now + lockout_duration)]) ∧
    (u.is_active = false → verify_password pw u.password_hash = true →
      (authenticate_user s uname pw ip ua now).1 =
          .failure "Account is inactive" ∧
      (authenticate_user s uname pw ip ua now).2.users = [u]) := by
  subst huname
  have hget : get_user_by_username s u.username = some u := by
    simp [get_user_by_username, husers]
  have hchk : ¬ (now < te) := Nat.not_lt.mpr hpast
  refine ⟨?_, ?_, ?_⟩
  · intro hact hpw
    refine ⟨?_, ?_, ?_⟩ <;>
      simp [authenticate_user, hget, hstale, hchk, hpw, hact,
        AuthOutcome.isSuccess, store_user, store_session, log_event, husers]
  · intro hpw hmany
    constructor <;>
      simp [authenticate_user, hget, hstale, hchk, hpw, hmany, store_user,
        log_event, husers]
  · intro hact hpw
    constructor <;>
      simp [authenticate_user, hget, hstale, hchk, hpw, hact, log_event,
        husers]

/-- **C10, witness.** The success branch at a concrete input: `charlie`
(stale lockout 100, 5 failures) authenticates with the correct password
at time 200; both `locked_until` and the failure counter are reset. -/
theorem C10_witness :
    (authenticate_user c10State "charlie" "Ch@rliePass123" "ip" "ua"
        200).1.isSuccess = true ∧
    (authenticate_user c10State "charlie" "Ch@rliePass123" "ip" "ua"
        200).2.users.map User.locked_until = [none] ∧
    (authenticate_user c10State "charlie" "Ch@rliePass123" "ip" "ua"
        200).2.users.map User.failed_login_attempts = [0] :=
  (C10_stale_lock_cleared_only_by_full_success c10State charlie "charlie"
    "Ch@rliePass123" "ip" "ua" 200 100 (by decide) (by decide) (by decide)
    (by decide)).1 (by decide) (by decide)

/-! ### Refresh / revocation claims -/

/-- An `Except.ok` result of `jwtDecode` always carries the token's own
payload. -/
theorem jwtDecode_ok_payload (t : Token) (now : Nat) (p : TokenPayload)
    (h : jwtDecode t now = .ok p) : p = t.payload := by
  unfold jwtDecode at h
  split at h
  · simp at h
  · split at h
    · simp at h
    · simpa using h.symm

/-- **C2.** In any state whose session records all carry already-drawn
token ids (every stored `jti` below the freshness counter), an access
token handed out by a successful `refresh_access_token` is rejected by
`validate_token` at every later time: refresh stores no session for the
new token's fresh `jti`, and validation requires one. -/
theorem C2_refreshed_access_token_rejected (s : AuthState)
    (tok newTok : Token) (now now2 : Nat)
    (hfresh : ∀ r ∈ s.sessions, r.jti < s.jtiCounter)
    (hnew : (refresh_access_token s tok now).1.2 = some newTok) :
    validate_token (refresh_access_token s tok now).2 newTok now2 =
      (false, none) := by
  rcases hdec : jwtDecode tok now with e | p
  · simp [refresh_access_token, hdec] at hnew
  · by_cases hty : p.type = "refresh"
    · rcases hu : get_user_by_id s p.user_id with _ | u
      · simp [refresh_access_token, hdec, hty, hu] at hnew
      · by_cases hact : u.is_active
        · have hnt : newTok = generate_access_token u now s.jtiCounter := by
            have := hnew
            simp only [refresh_access_token, hdec, hty, hu, hact] at this
            simpa using this.symm
          have hst : (refresh_access_token s tok now).2 =
              { s with jtiCounter := s.jtiCounter + 1 } := by
            simp [refresh_access_token, hdec, hty, hu, hact]
          rw [hst, hnt]
          rcases hdec2 : jwtDecode (generate_access_token u now s.jtiCounter)
              now2 with e2 | p2
          · simp [validate_token, hdec2]
          · have hp2 : p2 =
                (generate_access_token u now s.jtiCounter).payload :=
              jwtDecode_ok_payload _ _ _ hdec2
            subst hp2
            have hsess : sessionExists { s with jtiCounter := s.jtiCounter + 1 }
                (generate_access_token u now s.jtiCounter).payload.user_id
                (generate_access_token u now s.jtiCounter).payload.jti
                now2 = false := by
              rw [sessionExists, List.any_eq_false]
              intro r hr
              have hlt : r.jti < s.jtiCounter := hfresh r hr
              simp [generate_access_token, Nat.ne_of_lt hlt]
            simp [validate_token, hdec2, hsess]
        · simp [refresh_access_token, hdec, hty, hu, hact] at hnew
    · simp [refresh_access_token, hdec, hty] at hnew

/-- **C2, witness.** Refreshing `alice`'s refresh token at time 100
yields the access token with the fresh `jti` 2, which `validate_token`
then rejects at time 150. -/
theorem C2_witness :
    validate_token (refresh_access_token c2State c1Refresh 100).2
      (generate_access_token aliceActive 100 2) 150 = (false, none) :=
  C2_refreshed_access_token_rejected c2State c1Refresh
    (generate_access_token aliceActive 100 2) 100 150 (by decide) (by decide)

/-- `refresh_access_token` never adds session records and never lowers
the freshness counter. -/
theorem refresh_state_shape (s : AuthState) (t : Token) (now : Nat) :
    (refresh_access_token s t now).2.sessions = s.sessions ∧
    s.jtiCounter ≤ (refresh_access_token s t now).2.jtiCounter := by
  unfold refresh_access_token
  split
  · exact ⟨rfl, Nat.le_refl _⟩
  · split
    · exact ⟨rfl, Nat.le_refl _⟩
    · split
      · exact ⟨rfl, Nat.le_refl _⟩
      · split
        · exact ⟨rfl, Nat.le_refl _⟩
        · exact ⟨rfl, Nat.le_succ _⟩

/-- `logout_user` only removes session records and keeps the counter. -/
theorem logout_state_shape (s : AuthState) (t : Token) (now : Nat) :
    (∀ r ∈ (logout_user s t now).2.sessions, r ∈ s.sessions) ∧
    s.jtiCounter ≤ (logout_user s t now).2.jtiCounter := by
  unfold logout_user
  split
  · exact ⟨fun _ hr => hr, Nat.le_refl _⟩
  · exact ⟨fun _ hr => List.mem_of_mem_filter hr, Nat.le_refl _⟩

/-- `authenticate_user` never lowers the counter, and every session
record it leaves behind either predates the call or carries a `jti` at
or above the pre-call counter. -/
theorem authenticate_state_shape (s : AuthState) (un pw ip ua : String)
    (now : Nat) :
    s.jtiCounter ≤ (authenticate_user s un pw ip ua now).2.jtiCounter ∧
    ∀ r ∈ (authenticate_user s un pw ip ua now).2.sessions,
      r ∈ s.sessions ∨ s.jtiCounter ≤ r.jti := by
  unfold authenticate_user
  split
  · exact ⟨Nat.le_refl _, fun r hr => .inl (by simpa [log_event] using hr)⟩
  · split
    · exact ⟨Nat.le_refl _, fun r hr => .inl (by simpa [log_event] using hr)⟩
    · split
      · constructor
        · simp only [log_event, store_user]
          split <;> simp [log_event]
        · intro r hr
          left
          simp only [log_event, store_user] at hr
          split at hr <;> simpa [log_event] using hr
      · split
        · exact ⟨Nat.le_refl _,
            fun r hr => .inl (by simpa [log_event] using hr)⟩
        · constructor
          · simp [log_event, store_session, store_user]
          · intro r hr
            simp only [log_event, store_session, store_user] at hr
            rcases List.mem_append.mp hr with h | h
            · exact .inl (List.mem_of_mem_filter h)
            · right
              simp only [List.mem_singleton] at h
              subst h
              simp [generate_access_token]

/-- A dead session key stays dead across any single operation: fresh
`jti`s are drawn strictly above the counter the key sits below. -/
theorem noSession_preserved (s : AuthState) (uid : String) (j : Nat)
    (op : AuthOp) (h : noSession s uid j) : noSession (runOp s op) uid j := by
  obtain ⟨hcnt, hsess⟩ := h
  cases op with
  | authCall un pw ip ua now =>
      obtain ⟨hle, hmem⟩ := authenticate_state_shape s un pw ip ua now
      refine ⟨Nat.lt_of_lt_of_le hcnt hle, fun r hr => ?_⟩
      rcases hmem r hr with hold | hjti
      · exact hsess r hold
      · rintro ⟨-, rfl⟩
        omega
  | refreshCall t now =>
      obtain ⟨hse, hle⟩ := refresh_state_shape s t now
      refine ⟨Nat.lt_of_lt_of_le hcnt hle, fun r hr => ?_⟩
      exact hsess r (by rwa [show (runOp s (.refreshCall t now)).sessions
        = s.sessions from hse] at hr)
  | logoutCall t now =>
      obtain ⟨hse, hle⟩ := logout_state_shape s t now
      exact ⟨Nat.lt_of_lt_of_le hcnt hle, fun r hr => hsess r (hse r hr)⟩
  | putUser u =>
      exact ⟨hcnt, hsess⟩

/-- A dead session key stays dead across any operation sequence. -/
theorem noSession_runOps (s : AuthState) (uid : String) (j : Nat)
    (ops : List AuthOp) (h : noSession s uid j) :
    noSession (runOps s ops) uid j := by
  induction ops generalizing s with
  | nil => exact h
  | cons op ops ih => exact ih _ (noSession_preserved s uid j op h)

/-- A dead session key makes `sessionExists` false at every time. -/
theorem sessionExists_eq_false_of_noSession (S : AuthState) (uid : String)
    (j now : Nat) (h : ∀ r ∈ S.sessions, ¬ (r.user_id = uid ∧ r.jti = j)) :
    sessionExists S uid j now = false := by
  rw [sessionExists, List.any_eq_false]
  intro r hr
  have hne := h r hr
  simp only [Bool.and_eq_true, beq_iff_eq, decide_eq_true_eq, not_and]
  intro hand
  exact absurd ⟨hand.1, hand.2⟩ hne

/-- **C6.** A token whose `jti` was drawn by this manager and that
`validate_token` currently accepts is rejected by every `validate_token`
call made after `logout_user` was invoked with it — even before its
natural expiry, and no matter which authentication / refresh / logout /
identity-store operations run in between: revocation is never undone. -/
theorem C6_revoked_token_stays_rejected (s : AuthState) (tok : Token)
    (t0 t1 t2 : Nat) (ops : List AuthOp)
    (hacc : (validate_token s tok t0).1 = true)
    (hfresh : tok.payload.jti < s.jtiCounter)
    (h01 : t0 ≤ t1) (h12 : t1 ≤ t2) :
    (validate_token (runOps (logout_user s tok t1).2 ops) tok t2).1
      = false := by
  have hsig : tok.validSig = true := by
    by_cases hv : tok.validSig = true
    · exact hv
    · rw [Bool.not_eq_true] at hv
      simp [validate_token, jwtDecode, hv] at hacc
  by_cases hexp : tok.payload.exp < t1
  · -- the token has expired by the revocation time, hence by `t2` too
    have : tok.payload.exp < t2 := Nat.lt_of_lt_of_le hexp h12
    simp [validate_token, jwtDecode, hsig, this]
  · -- live at `t1`: logout deletes the session key, which stays dead
    have hdec1 : jwtDecode tok t1 = .ok tok.payload := by
      simp [jwtDecode, hsig, hexp]
    have hns : noSession (logout_user s tok t1).2 tok.payload.user_id
        tok.payload.jti := by
      constructor
      · show tok.payload.jti < (logout_user s tok t1).2.jtiCounter
        simpa [logout_user, hdec1] using hfresh
      · intro r hr
        simp only [logout_user, hdec1] at hr
        have hpred := (List.mem_filter.mp hr).2
        simp only [Bool.not_eq_eq_eq_not, Bool.not_true, Bool.and_eq_false_iff,
          beq_eq_false_iff_ne, ne_eq] at hpred
        rintro ⟨ha, hb⟩
        rcases hpred with h | h
        · exact h ha
        · exact h hb
    have hnsF := noSession_runOps _ _ _ ops hns
    rcases hdec2 : jwtDecode tok t2 with e | p
    · simp [validate_token, hdec2]
    · have hp : p = tok.payload := jwtDecode_ok_payload _ _ _ hdec2
      subst hp
      have hsf := sessionExists_eq_false_of_noSession _ _ _ t2 hnsF.2
      simp [validate_token, hdec2, hsf]

/-- **C6, witness.** `alice`'s accepted access token, revoked at time
60; after a later unrelated operation, validation at time 70 rejects it
although it expires only at 3650. -/
theorem C6_witness :
    (validate_token (runOps (logout_user c2State c1Access 60).2
        [.putUser charlie]) c1Access 70).1 = false :=
  C6_revoked_token_stays_rejected c2State c1Access 50 60 70
    [.putUser charlie] (by decide) (by decide) (by decide) (by decide)

/-! ### Brute-force window claims -/

/-- The detection flag is exactly "pruned-and-inserted cardinality
strictly above the threshold". -/
theorem detect_snd (w : List Nat) (t : Nat) :
    (detect_brute_force w t).2 =
      decide (brute_force_max_attempts <
        (detect_brute_force w t).1.length) := rfl

/-- One prune-and-insert step grows the window by at most one entry. -/
theorem detect_length_le (w : List Nat) (t : Nat) :
    (detect_brute_force w t).1.length ≤ w.length + 1 := by
  show (if (pruneWindow w t).contains t then pruneWindow w t
      else pruneWindow w t ++ [t]).length ≤ w.length + 1
  have hp : (pruneWindow w t).length ≤ w.length :=
    List.length_filter_le _ _
  split
  · omega
  · simp only [List.length_append, List.length_singleton]
    omega

/-- `analyze_request` updates the origin's window by exactly one
prune-and-insert step. -/
theorem analyze_window_step (st : MonitorState) (susp : String → Bool)
    (ip ua ep : String) (uid : Option String) (t : Nat) :
    ((analyze_request st susp ip ua ep uid t).1).requests ip =
      (detect_brute_force (st.requests ip) t).1 := by
  simp [analyze_request]

/-- When the brute-force detector does not fire, no high-severity
brute-force event is among the call's threats (the other detectors only
emit `medium`). -/
theorem analyze_no_high_of_no_bf (st : MonitorState) (susp : String → Bool)
    (ip ua ep : String) (uid : Option String) (t : Nat)
    (hbf : (detect_brute_force (st.requests ip) t).2 = false) :
    ∀ e ∈ (analyze_request st susp ip ua ep uid t).2,
      ¬ (e.event_type = "brute_force_detected" ∧ e.severity = .high) := by
  intro e he hcl
  simp only [analyze_request, hbf, Bool.false_eq_true, if_false,
    List.nil_append, List.mem_append] at he
  have hmed : e.severity = SecurityLevel.medium := by
    rcases he with h | h <;>
    · split at h
      · simp only [List.mem_singleton] at h
        subst h
        rfl
      · simp at h
  rw [hcl.2] at hmed
  exact SecurityLevel.noConfusion hmed

/-- When the brute-force detector fires, the call's threats contain the
high-severity brute-force event. -/
theorem analyze_high_of_bf (st : MonitorState) (susp : String → Bool)
    (ip ua ep : String) (uid : Option String) (t : Nat)
    (hbf : (detect_brute_force (st.requests ip) t).2 = true) :
    ∃ e ∈ (analyze_request st susp ip ua ep uid t).2,
      e.event_type = "brute_force_detected" ∧ e.severity = .high := by
  refine ⟨create_threat_event "brute_force_detected" .high
    ("Brute force attack detected from IP: " ++ ip) ip ua uid t,
    ?_, rfl, rfl⟩
  simp [analyze_request, hbf]

/-- The origin's window after a call sequence is the fold of
prune-and-insert steps over the timestamps. -/
theorem runAnalyze_ip_window (susp : String → Bool) (ip ua ep : String)
    (uid : Option String) (st : MonitorState) (ts : List Nat) :
    (runAnalyze susp ip ua ep uid st ts).1.requests ip =
      ts.foldl (fun w t => (detect_brute_force w t).1) (st.requests ip) := by
  induction ts generalizing st with
  | nil => rfl
  | cons t ts ih =>
      simp only [runAnalyze, List.foldl_cons]
      rw [ih, analyze_window_step]

/-- Threats of a split call sequence concatenate. -/
theorem runAnalyze_append (susp : String → Bool) (ip ua ep : String)
    (uid : Option String) (st : MonitorState) (ts1 ts2 : List Nat) :
    (runAnalyze susp ip ua ep uid st (ts1 ++ ts2)).2 =
      (runAnalyze susp ip ua ep uid st ts1).2 ++
      (runAnalyze susp ip ua ep uid
        (runAnalyze susp ip ua ep uid st ts1).1 ts2).2 := by
  induction ts1 generalizing st with
  | nil => simp [runAnalyze]
  | cons t ts ih => simp [runAnalyze, ih, List.append_assoc]

/-- Folding prune-and-insert over pairwise-fresh, in-window timestamps
appends them all: nothing is pruned and nothing collapses. -/
theorem window_accumulates (ts : List Nat) (w : List Nat)
    (hin : ∀ x ∈ w ++ ts, ∀ t ∈ ts,
      ¬ ((x : Int) ≤ (t : Int) - brute_force_time_window))
    (hnd : (w ++ ts).Nodup) :
    ts.foldl (fun w t => (detect_brute_force w t).1) w = w ++ ts := by
  induction ts generalizing w with
  | nil => simp
  | cons t ts ih =>
      have hfilter : pruneWindow w t = w := by
        rw [pruneWindow, List.filter_eq_self]
        intro x hx
        simpa using hin x (List.mem_append_left _ hx) t
          (List.mem_cons_self _ _)
      have hnotmem : t ∉ w := by
        intro htw
        exact (List.disjoint_of_nodup_append hnd) htw
          (List.mem_cons_self _ _)
      have hstep : (detect_brute_force w t).1 = w ++ [t] := by
        show (if (pruneWindow w t).contains t then pruneWindow w t
            else pruneWindow w t ++ [t]) = w ++ [t]
        rw [hfilter]
        simp [hnotmem]
      rw [List.foldl_cons, hstep]
      have hin' : ∀ x ∈ (w ++ [t]) ++ ts, ∀ t' ∈ ts,
          ¬ ((x : Int) ≤ (t' : Int) - brute_force_time_window) := by
        intro x hx t' ht'
        refine hin x ?_ t' (List.mem_cons_of_mem _ ht')
        simpa [List.append_assoc] using hx
      have hnd' : ((w ++ [t]) ++ ts).Nodup := by
        simpa [List.append_assoc] using hnd
      rw [ih (w ++ [t]) hin' hnd', List.append_assoc]
      rfl

/-- At most `threshold` calls from an empty window never fire the
brute-force detector. -/
theorem runAnalyze_no_high_brute (susp : String → Bool) (ip ua ep : String)
    (uid : Option String) (st : MonitorState) (ts : List Nat)
    (h : (st.requests ip).length + ts.length ≤ brute_force_max_attempts) :
    ∀ e ∈ (runAnalyze susp ip ua ep uid st ts).2,
      ¬ (e.event_type = "brute_force_detected" ∧ e.severity = .high) := by
  induction ts generalizing st with
  | nil =>
      intro e he
      simp [runAnalyze] at he
  | cons t ts ih =>
      intro e he
      simp only [runAnalyze, List.mem_append] at he
      have hlen1 : ((detect_brute_force (st.requests ip) t).1).length ≤
          (st.requests ip).length + 1 := detect_length_le _ _
      rw [show brute_force_max_attempts = 10 from rfl] at h
      simp only [List.length_cons] at h
      rcases he with he | he
      · have hbf : (detect_brute_force (st.requests ip) t).2 = false := by
          rw [detect_snd]
          apply decide_eq_false
          rw [show brute_force_max_attempts = 10 from rfl]
          omega
        exact analyze_no_high_of_no_bf st susp ip ua ep uid t hbf e he
      · refine ih (analyze_request st susp ip ua ep uid t).1 ?_ e he
        rw [analyze_window_step,
          show brute_force_max_attempts = 10 from rfl]
        omega

/-- **C4, counterexample.** Eleven requests from the same origin, all
within one sliding window (they share the second-timestamp 1000), yield
no high-severity brute-force event at all: the window stores the second
as a set member, so the eleven requests collapse to a single entry and
the cardinality never exceeds the threshold. -/
theorem C4_counterexample :
    (runAnalyze (fun _ => false) "203.0.113.9" "ua" "/login" none m0
      (List.replicate 11 1000)).2 = [] := by
  decide

/-- **C4, amended.** With the per-origin window starting empty: issuing
`threshold + 1` requests at pairwise distinct second-timestamps within
one sliding window yields at least one high-severity brute-force event,
and issuing at most `threshold` requests — however spread, in particular
across twice the window duration — yields none.  The window is
maintained by discarding entries with timestamp at most
`now - windowSeconds` before inserting the current second as a set
member (requests sharing a second collapse to one entry), then comparing
the resulting cardinality strictly to the threshold. -/
theorem C4_sliding_window_brute_force (susp : String → Bool)
    (ip ua ep : String) (uid : Option String) (st : MonitorState)
    (hempty : st.requests ip = [])
    (ts10 : List Nat) (tlast lo : Nat)
    (hlen : ts10.length = brute_force_max_attempts)
    (hnd : (ts10 ++ [tlast]).Nodup)
    (hlb : ∀ x ∈ ts10 ++ [tlast], lo ≤ x)
    (hub : ∀ x ∈ ts10 ++ [tlast], x ≤ lo + (brute_force_time_window - 1))
    (tsAny : List Nat) (hlenAny : tsAny.length ≤ brute_force_max_attempts) :
    (∃ e ∈ (runAnalyze susp ip ua ep uid st (ts10 ++ [tlast])).2,
        e.event_type = "brute_force_detected" ∧ e.severity = .high) ∧
    (∀ e ∈ (runAnalyze susp ip ua ep uid st tsAny).2,
        ¬ (e.event_type = "brute_force_detected" ∧ e.severity = .high)) := by
  have hno : ∀ x ∈ ts10 ++ [tlast], ∀ t' ∈ ts10 ++ [tlast],
      ¬ ((x : Int) ≤ (t' : Int) - brute_force_time_window) := by
    intro x hx t' ht' hc
    have h1 := hlb x hx
    have h2 := hub t' ht'
    rw [show brute_force_time_window = 300 from rfl] at h2
    rw [show ((brute_force_time_window : Nat) : Int) = 300 from rfl] at hc
    omega
  constructor
  · rw [runAnalyze_append]
    have hwin : (runAnalyze susp ip ua ep uid st ts10).1.requests ip
        = ts10 := by
      rw [runAnalyze_ip_window, hempty]
      have hin0 : ∀ x ∈ ([] : List Nat) ++ ts10, ∀ t ∈ ts10,
          ¬ ((x : Int) ≤ (t : Int) - brute_force_time_window) := by
        intro x hx t ht
        exact hno x (List.mem_append_left _ (by simpa using hx)) t
          (List.mem_append_left _ ht)
      have hnd0 : (([] : List Nat) ++ ts10).Nodup := by
        simpa using hnd.of_append_left
      simpa using window_accumulates ts10 [] hin0 hnd0
    have hnotmem : tlast ∉ ts10 := by
      intro hmem
      exact (List.disjoint_of_nodup_append hnd) hmem (by simp)
    have hstep : (detect_brute_force ts10 tlast).1 = ts10 ++ [tlast] := by
      show (if (pruneWindow ts10 tlast).contains tlast then
          pruneWindow ts10 tlast else pruneWindow ts10 tlast ++ [tlast])
        = ts10 ++ [tlast]
      have hfilter : pruneWindow ts10 tlast = ts10 := by
        rw [pruneWindow, List.filter_eq_self]
        intro x hx
        simpa using hno x (List.mem_append_left _ hx) tlast (by simp)
      rw [hfilter]
      simp [hnotmem]
    have hbf : (detect_brute_force
        ((runAnalyze susp ip ua ep uid st ts10).1.requests ip) tlast).2
        = true := by
      rw [hwin, detect_snd, hstep]
      simp [hlen]
    obtain ⟨e, hmem, he⟩ :=
      analyze_high_of_bf (runAnalyze susp ip ua ep uid st ts10).1 susp
        ip ua ep uid tlast hbf
    refine ⟨e, List.mem_append_right _ ?_, he⟩
    simpa [runAnalyze] using hmem
  · refine runAnalyze_no_high_brute susp ip ua ep uid st tsAny ?_
    rw [hempty]
    simpa using hlenAny

/-- **C4, witness.** Eleven requests at the distinct seconds 1000–1010
(span 10 s < 300 s) from an empty window raise the high-severity event;
ten requests spread 600 s apart (covering 5400 s, far more than twice
the 300 s window) raise none. -/
theorem C4_witness :
    (∃ e ∈ (runAnalyze (fun _ => false) "203.0.113.9" "ua" "/login" none m0
        ([1000, 1001, 1002, 1003, 1004, 1005, 1006, 1007, 1008, 1009]
          ++ [1010])).2,
      e.event_type = "brute_force_detected" ∧ e.severity = .high) ∧
    (∀ e ∈ (runAnalyze (fun _ => false) "203.0.113.9" "ua" "/login" none m0
        [0, 600, 1200, 1800, 2400, 3000, 3600, 4200, 4800, 5400]).2,
      ¬ (e.event_type = "brute_force_detected" ∧ e.severity = .high)) :=
  C4_sliding_window_brute_force (fun _ => false) "203.0.113.9" "ua"
    "/login" none m0 (by decide)
    [1000, 1001, 1002, 1003, 1004, 1005, 1006, 1007, 1008, 1009] 1010 1000
    (by decide) (by decide) (by decide) (by decide)
    [0, 600, 1200, 1800, 2400, 3000, 3600, 4200, 4800, 5400] (by decide)

end SecurityManager
